import Mathlib

/-!
Verification development for the AutoDL learning-curve plotter
(`autodl/utils/plot_alc.py`).

The module is shallowly embedded: Python floats become real numbers,
the plotter instance (`PlotAlc`) becomes an explicit state record, the
side effects on the chart surface and the logging sink become an
explicit event trace, and a Python `raise` becomes an `Except.error`
result carrying the state and the events performed up to the raise.

Two collaborators of the module are repository, respectively external,
code that is not part of the plotter source: the default time
transformation `transform_time` (from `autodl/utils/util.py`) and the
quadrature primitives `auc_step` (from `autodl/auto_scoring/score.py`)
and `auc` (from sklearn).  They are modelled from the specification, as
marked on their doc comments.
-/

namespace AutoDL

/-- A value stored in the free-form style-option dictionary `kwargs`.
`labelVal` stands for the legend label string built from the model name
and the formatted ALC value; the formatting itself is presentation and
the value is removed again before the call returns, so only the data it
was built from is recorded. -/
inductive KwVal where
  | str (s : String)
  | num (x : ℝ)
  | noneVal
  | labelVal (model : Option String) (alc : ℝ)

/-- Observable side effects of one `plot_learning_curve` call: the
truncation warning sent to the logger (with the first dropped index),
and the mutations of the chart surface. -/
inductive Event where
  | warn (firstDropped : ℕ)
  | clearFigure
  | createFigure
  | plotCurve
  | fillArea
  | finalText
  | plotDashed
  | legendCall
deriving DecidableEq

/-- The errors `plot_learning_curve` can raise.  The first four are the
`ValueError`s raised explicitly by the source; `nameError` models a
Python `NameError`/`UnboundLocalError` on a local variable that is read
without having been assigned on the taken path. -/
inductive Err where
  | lengthMismatch (nts nsc : ℕ)
  | nonMonotonic (a b : ℝ) (i j : ℕ)
  | beforeStart (t : ℝ) (i : ℕ) (start : ℝ)
  | invalidMethod
  | nameError (localName : String)

/-- The state of a `PlotAlc` instance: the configuration fields set by
`__init__`, the style dictionary `kwargs`, the frame counter
`cur_frame`, and the chart state.  `selfFigAxes` is the number of axes
of `self.fig` (`none` when `self.fig is None`); `curIsSelf` records
whether pyplot's current figure is `self.fig`, and `curAxes` the number
of axes of pyplot's current figure, which is what `plt.clf()` clears. -/
structure PlotState where
  method : String
  transform : Option (ℝ → ℝ)
  task_name : Option String
  area_color : String
  fill_area : Bool
  model_name : Option String
  clear_figure : Bool
  show_final_score : Bool
  show_title : Bool
  kwargs : String → Option KwVal
  cur_frame : ℕ
  selfFigAxes : Option ℕ
  curIsSelf : Bool
  curAxes : ℕ

/-- `PlotAlc.init_plot`: `self.fig, self.ax = plt.subplots()` creates a
fresh figure with one axes and makes it pyplot's current figure. -/
def init_plot (s : PlotState) : PlotState :=
  { s with selfFigAxes := some 1, curIsSelf := true, curAxes := 1 }

/-- `PlotAlc.__init__`: store the configuration, set `cur_frame` to 0
and call `init_plot`. -/
def mkPlotAlc (method : String) (transform : Option (ℝ → ℝ))
    (task_name : Option String) (area_color : String) (fill_area : Bool)
    (model_name : Option String) (clear_figure : Bool)
    (show_final_score : Bool) (show_title : Bool)
    (kwargs : String → Option KwVal) : PlotState :=
  init_plot
    { method := method
      transform := transform
      task_name := task_name
      area_color := area_color
      fill_area := fill_area
      model_name := model_name
      clear_figure := clear_figure
      show_final_score := show_final_score
      show_title := show_title
      kwargs := kwargs
      cur_frame := 0
      selfFigAxes := none
      curIsSelf := false
      curAxes := 0 }

/-- A `PlotAlc` built with all constructor defaults except the
integration method: `PlotAlc(method=m)`. -/
def defaultPlot (m : String) : PlotState :=
  mkPlotAlc m none none "cyan" true none true true true (fun _ => none)

/-- Modelled from the spec: the canonical time transformation of
`autodl/utils/util.py` (`transform_time`), given in the spec as
`f(t) = log(1 + t / t0) / log(1 + T / t0)`. -/
noncomputable def transform_time (t T t0 : ℝ) : ℝ :=
  Real.log (1 + t / t0) / Real.log (1 + T / t0)

/-- Modelled from the spec: the step-function (right-continuous,
"steps-post") quadrature rule of `autodl/auto_scoring/score.py`
(`auc_step`): each interval `[x_i, x_{i+1}]` contributes its width
times the score at its left end. -/
def auc_step : List ℝ → List ℝ → ℝ
  | x1 :: x2 :: xs, y1 :: ys => (x2 - x1) * y1 + auc_step (x2 :: xs) ys
  | _, _ => 0

/-- Modelled from the spec: the standard trapezoidal quadrature used
for `method = "trapez"` (sklearn's `auc`, an external collaborator
"given as a pure function taking parallel X/Y sequences"). -/
noncomputable def auc : List ℝ → List ℝ → ℝ
  | x1 :: x2 :: xs, y1 :: y2 :: ys => (x2 - x1) * (y1 + y2) / 2 + auc (x2 :: xs) (y2 :: ys)
  | _, _ => 0

/-- The loop body of `PlotAlc.check_conditions`: `for i in range(le)`,
first the adjacency check `timestamps[i] <= timestamps[i+1]` (only when
`i < le - 1`), then the start-time check `timestamps[i] < start_time`,
in that order.  `i0` is the index of the head of `l` in the original
sequence. -/
noncomputable def checkLoop (start_time : ℝ) : List ℝ → ℕ → Except Err Unit
  | [], _ => .ok ()
  | [t], i =>
      if t < start_time then .error (.beforeStart t i start_time) else .ok ()
  | t :: t' :: rest, i =>
      if t ≤ t' then
        if t < start_time then .error (.beforeStart t i start_time)
        else checkLoop start_time (t' :: rest) (i + 1)
      else .error (.nonMonotonic t t' i (i + 1))

/-- `PlotAlc.check_conditions`: length check first, then the index
loop over the original, untruncated sequences. -/
noncomputable def check_conditions (timestamps scores : List ℝ)
    (start_time : ℝ) : Except Err Unit :=
  if timestamps.length = scores.length then checkLoop start_time timestamps 0
  else .error (.lengthMismatch timestamps.length scores.length)

/-- `kw[k] = v` on the style dictionary. -/
def setKw (kw : String → Option KwVal) (k : String) (v : KwVal) :
    String → Option KwVal :=
  fun q => if q = k then some v else kw q

/-- `if k not in kw: kw[k] = v`. -/
def setIfAbsent (kw : String → Option KwVal) (k : String) (v : KwVal) :
    String → Option KwVal :=
  match kw k with
  | some _ => kw
  | none => setKw kw k v

/-- `kw.pop(k, None)`: remove the key (the returned value is unused in
the source). -/
def removeKw (kw : String → Option KwVal) (k : String) :
    String → Option KwVal :=
  fun q => if q = k then none else kw q

/-- The result of one `plot_learning_curve` call on success: the
returned `alc` together with the final coordinate lists `X`, `Y`
(after the synthetic endpoint was appended), which are what the call
hands to the quadrature function and draws. -/
structure Success where
  alc : ℝ
  X : List ℝ
  Y : List ℝ

/-- One `plot_learning_curve` call: the instance state after the call,
the events performed before returning or raising, and the outcome. -/
structure RunResult where
  state : PlotState
  events : List Event
  out : Except Err Success

/-- The tail of `plot_learning_curve` from the method dispatch on: pick
the quadrature (`auc_step` for `"step"`, `auc` for `"trapez"`, else
raise), append the synthetic final point `(1, Y[-1])`, integrate, and
perform the drawing calls while mutating `self.kwargs` exactly as the
source does (`marker`/`markersize`/`label` defaulted if absent, then
`linestyle`, `linewidth`, `marker` overwritten for the dashed
connector and `label` popped). -/
noncomputable def plotFinish (s2 : PlotState) (events2 : List Event)
    (aucF : List ℝ → List ℝ → ℝ) (X1 Y1 : List ℝ) : RunResult :=
  let X := X1 ++ [1]
  let Y := Y1 ++ [Y1.getLastD 0]
  let alc := aucF X Y
  let kw1 := setIfAbsent s2.kwargs "marker" (KwVal.str "o")
  let kw2 := setIfAbsent kw1 "markersize" (KwVal.num 3)
  let kw3 := setIfAbsent kw2 "label" (KwVal.labelVal s2.model_name alc)
  let events3 := events2 ++ [Event.plotCurve]
      ++ (if s2.fill_area then [Event.fillArea] else [])
      ++ (if s2.show_final_score then [Event.finalText] else [])
  let kw4 := setKw kw3 "linestyle" (KwVal.str "--")
  let kw5 := setKw kw4 "linewidth" (KwVal.num 1)
  let kw6 := setKw kw5 "marker" KwVal.noneVal
  let kw7 := removeKw kw6 "label"
  ⟨{ s2 with kwargs := kw7 },
    events3 ++ [Event.plotDashed, Event.legendCall],
    .ok ⟨alc, X, Y⟩⟩

/-- The method dispatch `if self.method == "step" ... elif "trapez"
... else raise`.  It runs after `ax = fig.axes[0]` succeeded. -/
noncomputable def plotMethodDispatch (s2 : PlotState) (events2 : List Event)
    (X1 Y1 : List ℝ) : RunResult :=
  if s2.method = "step" then plotFinish s2 events2 auc_step X1 Y1
  else if s2.method = "trapez" then plotFinish s2 events2 auc X1 Y1
  else ⟨s2, events2, .error .invalidMethod⟩

/-- The effect of `plt.clf()` on the instance when `clear_figure` is
set: pyplot's current figure loses its axes, which empties `self.fig`
only when that is the current one. -/
def clfState (s : PlotState) : PlotState :=
  if s.clear_figure then
    { s with curAxes := 0,
             selfFigAxes := if s.curIsSelf then some 0 else s.selfFigAxes }
  else s

/-- The chart phase after the optional `plt.clf()`:
`if self.fig is None or len(self.fig.axes) == 0:` create a fresh local
figure `fig` (becoming pyplot's current figure), whose setup applies
the local `transform` to a nonempty literal tick list — a `NameError`
when that local was never assigned (custom-transform instances).  When
the branch is not taken, the local `fig` was never assigned and
`ax = fig.axes[0]` raises.  `localTransform` is the value of the local
variable `transform` (`none`: unassigned). -/
noncomputable def plotChartCore (s1 : PlotState) (events1 : List Event)
    (localTransform : Option (ℝ → ℝ)) (X0 sc' : List ℝ) : RunResult :=
  let emptyAxes : Bool :=
    match s1.selfFigAxes with
    | none => true
    | some n => n == 0
  if emptyAxes then
    let s2 := { s1 with curIsSelf := false, curAxes := 1 }
    let events2 := events1 ++ [Event.createFigure]
    match localTransform with
    | none => ⟨s2, events2, .error (.nameError "transform")⟩
    | some _ => plotMethodDispatch s2 events2 (0 :: X0) (0 :: sc')
  else
    ⟨s1, events1, .error (.nameError "fig")⟩

/-- The whole chart phase: `plt.clf()` when `clear_figure` is set,
then figure creation and the rest of the call. -/
noncomputable def plotChart (s : PlotState) (events0 : List Event)
    (localTransform : Option (ℝ → ℝ)) (X0 sc' : List ℝ) : RunResult :=
  plotChartCore (clfState s)
    (events0 ++ (if s.clear_figure then [Event.clearFigure] else []))
    localTransform X0 sc'

/-- `plot_learning_curve` after validation passed: truncate over-budget
observations (warning with the first dropped index when any were
dropped), bind the local `transform` — only the default branch assigns
it; a supplied custom transform leaves the local unassigned — and build
`X` by the comprehension `[transform(t) for t in relative_timestamps]`,
which touches the local `transform` only when the list is nonempty. -/
noncomputable def plotBody (s : PlotState) (timestamps scores : List ℝ)
    (start_time time_budget : ℝ) : RunResult :=
  let ts' := timestamps.filter (fun t => decide (t ≤ time_budget + start_time))
  let events0 := if ts'.length < timestamps.length
    then [Event.warn ts'.length] else []
  let sc' := scores.take ts'.length
  let localTransform : Option (ℝ → ℝ) :=
    match s.transform with
    | none => some (fun t => transform_time t time_budget 60)
    | some _ => none
  let relative := ts'.map (fun t => t - start_time)
  match localTransform with
  | some f => plotChart s events0 (some f) (relative.map f) sc'
  | none =>
    match relative with
    | [] => plotChart s events0 none [] sc'
    | _ :: _ => ⟨s, events0, .error (.nameError "transform")⟩

/-- `PlotAlc.plot_learning_curve`: validate against the original
sequences, then run the body.  A raise inside `check_conditions`
reaches the caller before any truncation, transform, or chart work. -/
noncomputable def plot_learning_curve (s : PlotState)
    (timestamps scores : List ℝ) (start_time time_budget : ℝ) : RunResult :=
  match check_conditions timestamps scores start_time with
  | .error e => ⟨s, [], .error e⟩
  | .ok _ => plotBody s timestamps scores start_time time_budget

/-! ### Derived shapes of the default run -/

/-- The warning events of the truncation phase. -/
noncomputable def warnEvents (ts : List ℝ) (st T : ℝ) : List Event :=
  if (ts.filter (fun t => decide (t ≤ T + st))).length < ts.length
  then [Event.warn (ts.filter (fun t => decide (t ≤ T + st))).length] else []

/-- The instance state right after the chart phase of a call on a fresh
default-configuration instance: `self.fig` was cleared and a new local
figure became pyplot's current figure. -/
def chartReadyState (m : String) : PlotState :=
  { defaultPlot m with selfFigAxes := some 0, curIsSelf := false, curAxes := 1 }

/-- The complete X sequence handed to the quadrature function by a run
with the default transform: origin, transformed retained relative
timestamps, and the synthetic final abscissa 1. -/
noncomputable def fullX (ts : List ℝ) (st T : ℝ) : List ℝ :=
  0 :: (ts.filter (fun t => decide (t ≤ T + st))).map
      (fun t => transform_time (t - st) T 60) ++ [1]

/-- The complete Y sequence handed to the quadrature function: 0, the
retained scores, and the duplicated last value. -/
noncomputable def fullY (ts sc : List ℝ) (st T : ℝ) : List ℝ :=
  (0 :: sc.take (ts.filter (fun t => decide (t ≤ T + st))).length) ++
    [(0 :: sc.take (ts.filter (fun t => decide (t ≤ T + st))).length).getLastD 0]

/-- All fields of the instance state that `plot_learning_curve` leaves
untouched: the nine configuration fields set by the constructor, and
the frame counter. -/
def ConfigEq (a b : PlotState) : Prop :=
  a.method = b.method ∧ a.transform = b.transform ∧ a.task_name = b.task_name
  ∧ a.area_color = b.area_color ∧ a.fill_area = b.fill_area
  ∧ a.model_name = b.model_name ∧ a.clear_figure = b.clear_figure
  ∧ a.show_final_score = b.show_final_score ∧ a.show_title = b.show_title
  ∧ a.cur_frame = b.cur_frame

/-- The net effect of one successful draw on `self.kwargs`: default
`marker`/`markersize`/`label` if absent (the label built from the
model name and the ALC), then `linestyle`, `linewidth` and `marker`
overwritten for the dashed connector, and `label` popped. -/
noncomputable def kwargsAfter (kw : String → Option KwVal)
    (mn : Option String) (a : ℝ) : String → Option KwVal :=
  removeKw
    (setKw
      (setKw
        (setKw
          (setIfAbsent
            (setIfAbsent (setIfAbsent kw "marker" (KwVal.str "o"))
              "markersize" (KwVal.num 3))
            "label" (KwVal.labelVal mn a))
          "linestyle" (KwVal.str "--"))
        "linewidth" (KwVal.num 1))
      "marker" KwVal.noneVal)
    "label"

/-- Whether an outcome is the `NonMonotonicTimestamps` validation
error (used to state, without binders, that a run did not raise it). -/
def isNonMonoErr : Except Err Success → Bool
  | .error (.nonMonotonic _ _ _ _) => true
  | _ => false

theorem transform_time_zero (T t0 : ℝ) : transform_time 0 T t0 = 0 := by
  simp [transform_time]

theorem plot_ok_eq_body (s : PlotState) (ts sc : List ℝ) (st T : ℝ)
    (h : check_conditions ts sc st = .ok ()) :
    plot_learning_curve s ts sc st T = plotBody s ts sc st T := by
  simp only [plot_learning_curve, h]

theorem plotBody_default (m : String) (ts sc : List ℝ) (st T : ℝ) :
    plotBody (defaultPlot m) ts sc st T =
      plotMethodDispatch (chartReadyState m)
        (warnEvents ts st T ++ [Event.clearFigure, Event.createFigure])
        (0 :: (ts.filter (fun t => decide (t ≤ T + st))).map
            (fun t => transform_time (t - st) T 60))
        (0 :: sc.take (ts.filter (fun t => decide (t ≤ T + st))).length) := by
  simp [plotBody, plotChart, plotChartCore, clfState, defaultPlot, mkPlotAlc, init_plot, warnEvents,
    chartReadyState, List.map_map]
  rfl

theorem plot_default_run (m : String) (ts sc : List ℝ) (st T : ℝ)
    (h : check_conditions ts sc st = .ok ()) :
    plot_learning_curve (defaultPlot m) ts sc st T =
      plotMethodDispatch (chartReadyState m)
        (warnEvents ts st T ++ [Event.clearFigure, Event.createFigure])
        (0 :: (ts.filter (fun t => decide (t ≤ T + st))).map
            (fun t => transform_time (t - st) T 60))
        (0 :: sc.take (ts.filter (fun t => decide (t ≤ T + st))).length) := by
  rw [plot_ok_eq_body _ _ _ _ _ h, plotBody_default]

/-! ### Validation characterization -/

theorem checkLoop_ok_iff (st : ℝ) (l : List ℝ) :
    ∀ i0 : ℕ, checkLoop st l i0 = .ok () ↔
      (l.Chain' (· ≤ ·) ∧ ∀ t ∈ l, st ≤ t) := by
  induction l with
  | nil => intro i0; simp [checkLoop]
  | cons t rest ih =>
    intro i0
    cases rest with
    | nil =>
      by_cases h : t < st
      · simp [checkLoop, h]
      · simp [checkLoop, h, not_lt.mp h]
    | cons t' rest' =>
      by_cases hmono : t ≤ t'
      · by_cases h : t < st
        · simp [checkLoop, hmono, h]
        · simp only [checkLoop, if_pos hmono, if_neg h, ih (i0 + 1)]
          simp [List.chain'_cons, hmono, not_lt.mp h, and_assoc]
      · simp [checkLoop, hmono, List.chain'_cons]

theorem check_conditions_ok_iff (ts sc : List ℝ) (st : ℝ) :
    check_conditions ts sc st = .ok () ↔
      (ts.length = sc.length ∧ ts.Chain' (· ≤ ·) ∧ ∀ t ∈ ts, st ≤ t) := by
  by_cases hlen : ts.length = sc.length
  · simp [check_conditions, hlen, checkLoop_ok_iff]
  · simp [check_conditions, hlen]

/-! ### Truncation keeps an index-paired prefix when sorted -/

theorem sorted_filter_le (b : ℝ) (l : List ℝ) (h : l.Pairwise (· ≤ ·)) :
    l.filter (fun t => decide (t ≤ b)) = l.takeWhile (fun t => decide (t ≤ b)) := by
  induction l with
  | nil => rfl
  | cons t rest ih =>
    rcases List.pairwise_cons.mp h with ⟨hhead, htail⟩
    by_cases hb : t ≤ b
    · simp [List.filter_cons, List.takeWhile_cons, hb, ih htail]
    · simp [List.filter_cons, List.takeWhile_cons, hb]
      intro u hu
      exact lt_of_lt_of_le (not_le.mp hb) (hhead u hu)

theorem zip_trunc (b : ℝ) (ts : List ℝ) :
    ∀ sc : List ℝ, ts.Pairwise (· ≤ ·) → ts.length = sc.length →
      (ts.filter (fun t => decide (t ≤ b))).zip
          (sc.take (ts.filter (fun t => decide (t ≤ b))).length)
        = (ts.zip sc).filter (fun p => decide (p.1 ≤ b)) := by
  induction ts with
  | nil => intro sc _ _; simp
  | cons t rest ih =>
    intro sc hpw hlen
    cases sc with
    | nil => simp at hlen
    | cons s sc' =>
      rcases List.pairwise_cons.mp hpw with ⟨hhead, htail⟩
      simp only [List.length_cons, Nat.succ.injEq] at hlen
      by_cases hb : t ≤ b
      · have hfc : (t :: rest).filter (fun u => decide (u ≤ b))
            = t :: rest.filter (fun u => decide (u ≤ b)) := by
          simp [List.filter_cons, hb]
        have hzc : ((t, s) :: rest.zip sc').filter (fun p => decide (p.1 ≤ b))
            = (t, s) :: (rest.zip sc').filter (fun p => decide (p.1 ≤ b)) := by
          simp [List.filter_cons, hb]
        rw [hfc, List.length_cons, List.take_succ_cons, List.zip_cons_cons,
          ih sc' htail hlen, List.zip_cons_cons, hzc]
      · have hrest : rest.filter (fun u => decide (u ≤ b)) = [] := by
          rw [List.filter_eq_nil_iff]
          intro u hu
          simp only [decide_eq_true_eq]
          exact fun hub => hb (le_trans (hhead u hu) hub)
        have hzip : (rest.zip sc').filter (fun p => decide (p.1 ≤ b)) = [] := by
          rw [List.filter_eq_nil_iff]
          intro p hp
          simp only [decide_eq_true_eq]
          exact fun hub => hb (le_trans (hhead p.1 (List.of_mem_zip hp).1) hub)
        simp [List.filter_cons, hb, hrest, hzip]

/-! ### Quadrature of constant curves -/

theorem auc_step_const (c : ℝ) : ∀ xs : List ℝ,
    auc_step xs (List.replicate xs.length c) = c * (xs.getLastD 0 - xs.headD 0)
  | [] => by simp [auc_step]
  | [x] => by simp [auc_step]
  | x1 :: x2 :: t => by
    have ih := auc_step_const c (x2 :: t)
    simp only [List.length_cons, List.replicate_succ, auc_step] at ih ⊢
    rw [ih]
    simp [List.getLastD_cons]
    ring

theorem auc_const (c : ℝ) : ∀ xs : List ℝ,
    auc xs (List.replicate xs.length c) = c * (xs.getLastD 0 - xs.headD 0)
  | [] => by simp [auc]
  | [x] => by simp [auc]
  | x1 :: x2 :: t => by
    have ih := auc_const c (x2 :: t)
    simp only [List.length_cons, List.replicate_succ, auc] at ih ⊢
    rw [ih]
    simp [List.getLastD_cons]
    ring

theorem getLastD_replicate (c : ℝ) (k : ℕ) :
    ∀ d : ℝ, (List.replicate (k + 1) c).getLastD d = c := by
  induction k with
  | zero => intro d; rfl
  | succ k ih =>
    intro d
    rw [List.replicate_succ, List.getLastD_cons, ih]

theorem auc_step_origin (c x1 : ℝ) (xs : List ℝ) :
    auc_step (0 :: x1 :: xs) (0 :: List.replicate (xs.length + 1) c)
      = c * ((x1 :: xs).getLastD 0 - x1) := by
  have h := auc_step_const c (x1 :: xs)
  simp only [List.length_cons] at h
  simp only [auc_step, h]
  simp

theorem auc_origin (c x1 : ℝ) (xs : List ℝ) :
    auc (0 :: x1 :: xs) (0 :: List.replicate (xs.length + 1) c)
      = x1 * c / 2 + c * ((x1 :: xs).getLastD 0 - x1) := by
  have h := auc_const c (x1 :: xs)
  simp only [List.length_cons] at h
  simp only [auc, List.replicate_succ, List.replicate_succ'] at h ⊢
  rw [h]
  simp

/-! ### Output shapes of the method dispatch -/

theorem plotFinish_out (s2 : PlotState) (ev : List Event)
    (aucF : List ℝ → List ℝ → ℝ) (X1 Y1 : List ℝ) :
    (plotFinish s2 ev aucF X1 Y1).out
      = .ok ⟨aucF (X1 ++ [1]) (Y1 ++ [Y1.getLastD 0]),
             X1 ++ [1], Y1 ++ [Y1.getLastD 0]⟩ := rfl

theorem plotMethodDispatch_step (s2 : PlotState) (ev : List Event)
    (X1 Y1 : List ℝ) (h : s2.method = "step") :
    plotMethodDispatch s2 ev X1 Y1 = plotFinish s2 ev auc_step X1 Y1 := by
  simp [plotMethodDispatch, h]

theorem plotMethodDispatch_trapez (s2 : PlotState) (ev : List Event)
    (X1 Y1 : List ℝ) (h : s2.method = "trapez") :
    plotMethodDispatch s2 ev X1 Y1 = plotFinish s2 ev auc X1 Y1 := by
  simp [plotMethodDispatch, h]

theorem plotMethodDispatch_invalid (s2 : PlotState) (ev : List Event)
    (X1 Y1 : List ℝ) (h1 : s2.method ≠ "step") (h2 : s2.method ≠ "trapez") :
    plotMethodDispatch s2 ev X1 Y1 = ⟨s2, ev, .error .invalidMethod⟩ := by
  simp [plotMethodDispatch, h1, h2]

theorem chartReadyState_method (m : String) : (chartReadyState m).method = m := rfl

/-! ### Claims -/

/-- C10: on empty input sequences (with the default configuration, the
only one under which a call completes) `plot_learning_curve` raises no
validation error (`check_conditions` succeeds vacuously), emits no
truncation warning, hands the quadrature function exactly
`X = [0, 1]`, `Y = [0, 0]`, and returns ALC = 0 — under both
integration methods. -/
theorem C10_empty_trace_flat_zero (st T : ℝ) :
    check_conditions [] [] st = .ok ()
  ∧ (plot_learning_curve (defaultPlot "step") [] [] st T).out
      = .ok ⟨0, [0, 1], [0, 0]⟩
  ∧ (plot_learning_curve (defaultPlot "trapez") [] [] st T).out
      = .ok ⟨0, [0, 1], [0, 0]⟩
  ∧ (∀ n, Event.warn n ∉ (plot_learning_curve (defaultPlot "step") [] [] st T).events)
  ∧ (∀ n, Event.warn n ∉ (plot_learning_curve (defaultPlot "trapez") [] [] st T).events) := by
  refine ⟨rfl, ?_, ?_, ?_, ?_⟩ <;>
    simp [plot_learning_curve, check_conditions, checkLoop, plotBody, plotChart, plotChartCore, clfState,
      plotMethodDispatch, plotFinish, defaultPlot, mkPlotAlc, init_plot,
      auc_step, auc]

/-- C1 counterexample: with the default configuration
(`method="step"`) and the valid input `timestamps=[0]`, `scores=[1]`,
`start_time=0`, `time_budget=7200`, the returned ALC is 1, while the
steps-post quadrature over the curve excluding the synthetic
duplicated final point pair — the points actually observed,
`X=[0, transform(0)] = [0,0]`, `Y=[0,1]` — is 0.  The claim that the
returned ALC is the quadrature excluding the synthetic pair is false. -/
theorem C1_counterexample :
    (plot_learning_curve (defaultPlot "step") [0] [1] 0 7200).out
      = .ok ⟨1, [0, 0, 1], [0, 1, 1]⟩
  ∧ auc_step [0, transform_time (0 - 0) 7200 60] [0, 1] = 0
  ∧ (1 : ℝ) ≠ 0 := by
  refine ⟨?_, ?_, one_ne_zero⟩
  · norm_num [plot_learning_curve, check_conditions, checkLoop, plotBody,
      plotChart, plotChartCore, clfState, plotMethodDispatch, plotFinish, defaultPlot, mkPlotAlc,
      init_plot, auc_step, transform_time_zero]
  · norm_num [auc_step, transform_time_zero]

/-- C1 amended: for every input passing validation, on a
default-configuration instance the returned ALC is the step-function
(for `method="step"`), respectively trapezoidal (for
`method="trapez"`), quadrature of the curve INCLUDING the synthetic
duplicated final point pair appended at X=1 — i.e. the area credits
the last observed score through the remainder of the budget. -/
theorem C1_quadrature_includes_synthetic (m : String) (ts sc : List ℝ)
    (st T : ℝ) (h : check_conditions ts sc st = .ok ()) :
    (m = "step" →
      (plot_learning_curve (defaultPlot m) ts sc st T).out
        = .ok ⟨auc_step (fullX ts st T) (fullY ts sc st T),
               fullX ts st T, fullY ts sc st T⟩)
  ∧ (m = "trapez" →
      (plot_learning_curve (defaultPlot m) ts sc st T).out
        = .ok ⟨auc (fullX ts st T) (fullY ts sc st T),
               fullX ts st T, fullY ts sc st T⟩) := by
  rw [plot_default_run m ts sc st T h]
  constructor <;> intro hm <;> subst hm
  · rw [plotMethodDispatch_step _ _ _ _ (chartReadyState_method _)]
    simp [plotFinish_out, fullX, fullY]
  · rw [plotMethodDispatch_trapez _ _ _ _ (chartReadyState_method _)]
    simp [plotFinish_out, fullX, fullY]

/-- C1 witness: the amended theorem applied at the concrete valid
input `timestamps=[0]`, `scores=[1]`, `start_time=0`,
`time_budget=7200` with `method="step"`. -/
theorem C1_witness :
    (plot_learning_curve (defaultPlot "step") [0] [1] 0 7200).out
      = .ok ⟨auc_step (fullX [0] 0 7200) (fullY [0] [1] 0 7200),
             fullX [0] 0 7200, fullY [0] [1] 0 7200⟩ :=
  (C1_quadrature_includes_synthetic "step" [0] [1] 0 7200
    (by norm_num [check_conditions, checkLoop])).1 rfl

/-- C2 counterexample: the constant trace `timestamps=[3600]`,
`scores=[1]` (all scores equal to c = 1) with `start_time=0`,
`time_budget=7200` and `method="step"` returns
ALC = 1 − log 61 / log 121 ≠ 1 = c: the inserted origin point makes
the curve 0 before the first (transformed) timestamp, so a constant
trace does not integrate to c in general. -/
theorem C2_counterexample :
    (plot_learning_curve (defaultPlot "step") [3600] [1] 0 7200).out.map Success.alc
      = Except.ok (1 - Real.log 61 / Real.log 121)
  ∧ 1 - Real.log 61 / Real.log 121 ≠ 1 := by
  constructor
  · norm_num [plot_learning_curve, check_conditions, checkLoop, plotBody,
      plotChart, plotChartCore, clfState, plotMethodDispatch, plotFinish, defaultPlot, mkPlotAlc,
      init_plot, auc_step, transform_time]
    rfl
  · have hq : 0 < Real.log 61 / Real.log 121 :=
      div_pos (Real.log_pos (by norm_num)) (Real.log_pos (by norm_num))
    intro habs
    have : Real.log 61 / Real.log 121 = 0 := by linarith
    exact absurd this (ne_of_gt hq)

/-- C2 amended: a non-empty constant trace yields ALC = c when (and,
for c ≠ 0, only when) its first retained transformed abscissa is 0; in
particular for every constant trace whose first timestamp equals
`start_time` (so that the default transform maps it to 0), with all
timestamps within the budget, both methods return ALC = c exactly. -/
theorem C2_constant_trace (rest : List ℝ) (c st T : ℝ)
    (hch : (st :: rest).Chain' (· ≤ ·))
    (hbud : ∀ t ∈ st :: rest, t ≤ T + st) :
    (plot_learning_curve (defaultPlot "step") (st :: rest)
        (List.replicate (rest.length + 1) c) st T).out.map Success.alc
      = Except.ok c
  ∧ (plot_learning_curve (defaultPlot "trapez") (st :: rest)
        (List.replicate (rest.length + 1) c) st T).out.map Success.alc
      = Except.ok c := by
  have hge : ∀ t ∈ st :: rest, st ≤ t := by
    intro t ht
    rcases List.mem_cons.mp ht with h | h
    · exact le_of_eq h.symm
    · exact List.rel_of_pairwise_cons
        (List.chain'_iff_pairwise.mp hch) h
  have hcheck : check_conditions (st :: rest) (List.replicate (rest.length + 1) c) st = .ok () := by
    rw [check_conditions_ok_iff]
    exact ⟨by simp, hch, hge⟩
  have hfilter : (st :: rest).filter (fun t => decide (t ≤ T + st)) = st :: rest :=
    List.filter_eq_self.mpr (fun a ha => by
      simpa using hbud a ha)
  have htake : List.take (st :: rest).length (List.replicate (rest.length + 1) c)
      = List.replicate (rest.length + 1) c := by
    have hl : (st :: rest).length = (List.replicate (rest.length + 1) c).length := by
      simp
    rw [hl, List.take_length]
  have hlast : (0 :: (rest.map (fun t => transform_time (t - st) T 60) ++ [1])).getLastD 0
      = (1 : ℝ) := by
    rw [← List.cons_append, List.getLastD_concat]
  constructor
  all_goals
    rw [plot_default_run _ _ _ _ _ hcheck]
  · rw [plotMethodDispatch_step _ _ _ _ (chartReadyState_method _)]
    rw [plotFinish_out]
    simp only [hfilter, List.length_replicate, htake, List.map_cons, sub_self,
      transform_time_zero]
    have hY : (0 :: List.replicate (rest.length + 1) c) ++
        [(0 :: List.replicate (rest.length + 1) c).getLastD 0]
        = 0 :: List.replicate (rest.length + 2) c := by
      rw [List.getLastD_cons, getLastD_replicate]
      simp [List.replicate_succ' (rest.length + 1) c]
    simp only [List.cons_append, hY]
    have := auc_step_origin c 0
      ((rest.map (fun t => transform_time (t - st) T 60)) ++ [1])
    simp only [List.length_append, List.length_map, List.length_cons,
      List.length_nil] at this
    rw [show rest.length + 1 + 1 = rest.length + 2 from rfl] at this
    rw [this, hlast]
    simp [Except.map]
  · rw [plotMethodDispatch_trapez _ _ _ _ (chartReadyState_method _)]
    rw [plotFinish_out]
    simp only [hfilter, List.length_replicate, htake, List.map_cons, sub_self,
      transform_time_zero]
    have hY : (0 :: List.replicate (rest.length + 1) c) ++
        [(0 :: List.replicate (rest.length + 1) c).getLastD 0]
        = 0 :: List.replicate (rest.length + 2) c := by
      rw [List.getLastD_cons, getLastD_replicate]
      simp [List.replicate_succ' (rest.length + 1) c]
    simp only [List.cons_append, hY]
    have := auc_origin c 0
      ((rest.map (fun t => transform_time (t - st) T 60)) ++ [1])
    simp only [List.length_append, List.length_map, List.length_cons,
      List.length_nil] at this
    rw [show rest.length + 1 + 1 = rest.length + 2 from rfl] at this
    rw [this, hlast]
    simp [Except.map]

/-- C2 witness: the amended theorem applied at the concrete constant
trace `timestamps=[0]`, `scores=[1/2]`, `start_time=0`,
`time_budget=7200`. -/
theorem C2_witness :
    (plot_learning_curve (defaultPlot "step") [0]
        (List.replicate 1 (1/2 : ℝ)) 0 7200).out.map Success.alc
      = Except.ok (1/2 : ℝ)
  ∧ (plot_learning_curve (defaultPlot "trapez") [0]
        (List.replicate 1 (1/2 : ℝ)) 0 7200).out.map Success.alc
      = Except.ok (1/2 : ℝ) :=
  C2_constant_trace [] (1/2) 0 7200 (by simp) (by norm_num)

theorem getLastD_of_ne_nil (l : List ℝ) (h : l ≠ []) (d d' : ℝ) :
    l.getLastD d = l.getLastD d' := by
  rcases hsome : l.getLast? with _ | v
  · exact absurd (List.getLast?_eq_none_iff.mp hsome) h
  · simp [List.getLastD_eq_getLast?, hsome]

theorem plotFinish_events (s2 : PlotState) (ev : List Event)
    (aucF : List ℝ → List ℝ → ℝ) (X1 Y1 : List ℝ) :
    (plotFinish s2 ev aucF X1 Y1).events
      = ev ++ [Event.plotCurve]
          ++ (if s2.fill_area then [Event.fillArea] else [])
          ++ (if s2.show_final_score then [Event.finalText] else [])
          ++ [Event.plotDashed, Event.legendCall] := rfl

/-- C4: for every input that passes validation and retains at least one
observation after truncation, on a default-configuration instance the
curve handed to the quadrature function is built exactly as
`X = [0] ++ transform(retained relative timestamps) ++ [1]` and
`Y = [0] ++ retained scores ++ [last retained score repeated]`. -/
theorem C4_curve_construction (m : String) (ts sc : List ℝ) (st T : ℝ)
    (h : check_conditions ts sc st = .ok ())
    (hm : m = "step" ∨ m = "trapez")
    (hne : sc.take (ts.filter (fun t => decide (t ≤ T + st))).length ≠ []) :
    ∃ a, (plot_learning_curve (defaultPlot m) ts sc st T).out
      = .ok ⟨a,
        0 :: (ts.filter (fun t => decide (t ≤ T + st))).map
            (fun t => transform_time (t - st) T 60) ++ [1],
        0 :: sc.take (ts.filter (fun t => decide (t ≤ T + st))).length
          ++ [(sc.take (ts.filter (fun t => decide (t ≤ T + st))).length).getLastD 0]⟩ := by
  rw [plot_default_run m ts sc st T h]
  have hY : (0 :: sc.take (ts.filter (fun t => decide (t ≤ T + st))).length)
        ++ [(0 :: sc.take (ts.filter (fun t => decide (t ≤ T + st))).length).getLastD 0]
      = 0 :: sc.take (ts.filter (fun t => decide (t ≤ T + st))).length
          ++ [(sc.take (ts.filter (fun t => decide (t ≤ T + st))).length).getLastD 0] := by
    rcases hl : sc.take (ts.filter (fun t => decide (t ≤ T + st))).length with _ | ⟨x, xs⟩
    · exact absurd hl hne
    · simp [List.getLastD_cons]
  rcases hm with hm | hm <;> subst hm
  · rw [plotMethodDispatch_step _ _ _ _ (chartReadyState_method _), plotFinish_out]
    exact ⟨_, by rw [hY]⟩
  · rw [plotMethodDispatch_trapez _ _ _ _ (chartReadyState_method _), plotFinish_out]
    exact ⟨_, by rw [hY]⟩

/-- C4 witness: the theorem applied at the concrete valid input
`timestamps=[5]`, `scores=[2]`, `start_time=0`, `time_budget=7200`
with `method="step"`. -/
theorem C4_witness :
    ∃ a, (plot_learning_curve (defaultPlot "step") [5] [2] 0 7200).out
      = .ok ⟨a,
        0 :: ([(5 : ℝ)].filter (fun t => decide (t ≤ 7200 + 0))).map
            (fun t => transform_time (t - 0) 7200 60) ++ [1],
        0 :: [(2 : ℝ)].take ([(5 : ℝ)].filter (fun t => decide (t ≤ 7200 + 0))).length
          ++ [([(2 : ℝ)].take ([(5 : ℝ)].filter (fun t => decide (t ≤ 7200 + 0))).length).getLastD 0]⟩ :=
  C4_curve_construction "step" [5] [2] 0 7200
    (by norm_num [check_conditions, checkLoop])
    (Or.inl rfl)
    (by norm_num [List.filter])

/-- C5: for every input that passes validation, exactly the
(timestamp, score) pairs whose timestamp exceeds
`start_time + time_budget` are dropped (the retained sequences stay
paired by index); if at least one pair was dropped a warning naming
the first dropped index (= the number of retained pairs) is emitted;
if none was dropped no warning is emitted; and the call proceeds —
on a default-configuration instance it completes successfully, so
truncation never raises. -/
theorem C5_truncation (ts sc : List ℝ) (st T : ℝ)
    (h : check_conditions ts sc st = .ok ()) :
    ((ts.filter (fun t => decide (t ≤ T + st))).zip
        (sc.take (ts.filter (fun t => decide (t ≤ T + st))).length)
      = (ts.zip sc).filter (fun p => decide (p.1 ≤ T + st)))
  ∧ ((ts.filter (fun t => decide (t ≤ T + st))).length < ts.length →
      Event.warn (ts.filter (fun t => decide (t ≤ T + st))).length
        ∈ (plot_learning_curve (defaultPlot "step") ts sc st T).events)
  ∧ (¬ (ts.filter (fun t => decide (t ≤ T + st))).length < ts.length →
      ∀ n, Event.warn n ∉ (plot_learning_curve (defaultPlot "step") ts sc st T).events)
  ∧ (∃ r, (plot_learning_curve (defaultPlot "step") ts sc st T).out = .ok r) := by
  rcases (check_conditions_ok_iff ts sc st).mp h with ⟨hlen, hch, -⟩
  have hpw : ts.Pairwise (· ≤ ·) := List.chain'_iff_pairwise.mp hch
  have hrun := plot_default_run "step" ts sc st T h
  rw [plotMethodDispatch_step _ _ _ _ (chartReadyState_method _)] at hrun
  refine ⟨zip_trunc (T + st) ts sc hpw hlen, ?_, ?_, ?_⟩
  · intro hdrop
    rw [hrun, plotFinish_events]
    simp [warnEvents, hdrop]
  · intro hkeep n
    rw [hrun, plotFinish_events]
    simp [warnEvents, hkeep, chartReadyState, defaultPlot, mkPlotAlc, init_plot]
  · exact ⟨_, by rw [hrun, plotFinish_out]⟩

/-- C5 witness: the theorem applied at the spec's truncation example
`timestamps=[10,100,9000]`, `scores=[0.1,0.5,0.9]`, `start_time=0`,
`time_budget=7200` (the third pair is over budget). -/
theorem C5_witness :
    (([(10 : ℝ), 100, 9000].filter (fun t => decide (t ≤ 7200 + 0))).zip
        ([(0.1 : ℝ), 0.5, 0.9].take
          ([(10 : ℝ), 100, 9000].filter (fun t => decide (t ≤ 7200 + 0))).length)
      = ([(10 : ℝ), 100, 9000].zip [(0.1 : ℝ), 0.5, 0.9]).filter
          (fun p => decide (p.1 ≤ 7200 + 0)))
  ∧ (([(10 : ℝ), 100, 9000].filter (fun t => decide (t ≤ 7200 + 0))).length
        < [(10 : ℝ), 100, 9000].length →
      Event.warn ([(10 : ℝ), 100, 9000].filter (fun t => decide (t ≤ 7200 + 0))).length
        ∈ (plot_learning_curve (defaultPlot "step") [10, 100, 9000]
            [0.1, 0.5, 0.9] 0 7200).events)
  ∧ (¬ ([(10 : ℝ), 100, 9000].filter (fun t => decide (t ≤ 7200 + 0))).length
        < [(10 : ℝ), 100, 9000].length →
      ∀ n, Event.warn n ∉ (plot_learning_curve (defaultPlot "step") [10, 100, 9000]
            [0.1, 0.5, 0.9] 0 7200).events)
  ∧ (∃ r, (plot_learning_curve (defaultPlot "step") [10, 100, 9000]
        [0.1, 0.5, 0.9] 0 7200).out = .ok r) :=
  C5_truncation [10, 100, 9000] [0.1, 0.5, 0.9] 0 7200
    (by norm_num [check_conditions, checkLoop])

/-- C3 counterexample: with `method="bogus"` on an otherwise default
instance and the valid input of empty sequences, `InvalidMethod` is
indeed raised — but only after the figure was cleared and a fresh
figure created, refuting "before any mutation of chart state (no
figure cleared or created)". -/
theorem C3_counterexample :
    (plot_learning_curve (defaultPlot "bogus") [] [] 0 7200).out
      = .error .invalidMethod
  ∧ Event.clearFigure ∈ (plot_learning_curve (defaultPlot "bogus") [] [] 0 7200).events
  ∧ Event.createFigure ∈ (plot_learning_curve (defaultPlot "bogus") [] [] 0 7200).events := by
  refine ⟨?_, ?_, ?_⟩ <;>
    simp [plot_learning_curve, check_conditions, checkLoop, plotBody, plotChart, plotChartCore, clfState,
      plotMethodDispatch, defaultPlot, mkPlotAlc, init_plot]

/-- C3 amended: for every input passing validation on a
default-configuration instance whose method is outside
{"step","trapez"}, the call raises `InvalidMethod` — but only after
validation, truncation, transform and curve construction, and after
the figure has been cleared and a fresh figure created; no curve is
drawn, no area filled, no text or legend shown. -/
theorem C3_invalid_method (m : String) (ts sc : List ℝ) (st T : ℝ)
    (h : check_conditions ts sc st = .ok ())
    (h1 : m ≠ "step") (h2 : m ≠ "trapez") :
    (plot_learning_curve (defaultPlot m) ts sc st T).out = .error .invalidMethod
  ∧ (plot_learning_curve (defaultPlot m) ts sc st T).events
      = warnEvents ts st T ++ [Event.clearFigure, Event.createFigure]
  ∧ Event.plotCurve ∉ (plot_learning_curve (defaultPlot m) ts sc st T).events
  ∧ Event.fillArea ∉ (plot_learning_curve (defaultPlot m) ts sc st T).events
  ∧ Event.finalText ∉ (plot_learning_curve (defaultPlot m) ts sc st T).events
  ∧ Event.plotDashed ∉ (plot_learning_curve (defaultPlot m) ts sc st T).events
  ∧ Event.legendCall ∉ (plot_learning_curve (defaultPlot m) ts sc st T).events := by
  rw [plot_default_run m ts sc st T h,
    plotMethodDispatch_invalid _ _ _ _
      (by rw [chartReadyState_method]; exact h1)
      (by rw [chartReadyState_method]; exact h2)]
  refine ⟨rfl, rfl, ?_, ?_, ?_, ?_, ?_⟩ <;> simp [warnEvents]

/-- C3 witness: the amended theorem applied at `method="bogus"`,
`timestamps=[10]`, `scores=[0.5]`, `start_time=0`,
`time_budget=7200`. -/
theorem C3_witness :
    (plot_learning_curve (defaultPlot "bogus") [10] [0.5] 0 7200).out
      = .error .invalidMethod
  ∧ (plot_learning_curve (defaultPlot "bogus") [10] [0.5] 0 7200).events
      = warnEvents [10] 0 7200 ++ [Event.clearFigure, Event.createFigure]
  ∧ Event.plotCurve ∉ (plot_learning_curve (defaultPlot "bogus") [10] [0.5] 0 7200).events
  ∧ Event.fillArea ∉ (plot_learning_curve (defaultPlot "bogus") [10] [0.5] 0 7200).events
  ∧ Event.finalText ∉ (plot_learning_curve (defaultPlot "bogus") [10] [0.5] 0 7200).events
  ∧ Event.plotDashed ∉ (plot_learning_curve (defaultPlot "bogus") [10] [0.5] 0 7200).events
  ∧ Event.legendCall ∉ (plot_learning_curve (defaultPlot "bogus") [10] [0.5] 0 7200).events :=
  C3_invalid_method "bogus" [10] [0.5] 0 7200
    (by norm_num [check_conditions, checkLoop])
    (by decide) (by decide)

/-- C7: the source never assigns the local variable `transform` when a
custom transform is supplied at construction (`self.transform` is only
read to decide which branch to take, and only the default branch binds
the local), so building X raises a `NameError` instead of applying the
supplied function: with `transform = fun t => t / 7200` and the valid
input `timestamps=[60]`, `scores=[1/2]`, the call fails. -/
theorem C7_custom_transform_name_error :
    (plot_learning_curve
        (mkPlotAlc "step" (some (fun t => t / 7200)) none "cyan" true none
          true true true (fun _ => none))
        [60] [1/2] 0 7200).out
      = .error (.nameError "transform") := by
  norm_num [plot_learning_curve, check_conditions, checkLoop, plotBody,
    mkPlotAlc, init_plot]

/-! ### Configuration and frame-counter preservation -/

theorem configEq_refl (a : PlotState) : ConfigEq a a :=
  ⟨rfl, rfl, rfl, rfl, rfl, rfl, rfl, rfl, rfl, rfl⟩

theorem configEq_trans {a b c : PlotState} (h1 : ConfigEq a b)
    (h2 : ConfigEq b c) : ConfigEq a c := by
  obtain ⟨e1, e2, e3, e4, e5, e6, e7, e8, e9, e10⟩ := h1
  obtain ⟨f1, f2, f3, f4, f5, f6, f7, f8, f9, f10⟩ := h2
  exact ⟨e1.trans f1, e2.trans f2, e3.trans f3, e4.trans f4, e5.trans f5,
    e6.trans f6, e7.trans f7, e8.trans f8, e9.trans f9, e10.trans f10⟩

theorem plotFinish_configEq (s2 : PlotState) (ev : List Event)
    (aucF : List ℝ → List ℝ → ℝ) (X1 Y1 : List ℝ) :
    ConfigEq (plotFinish s2 ev aucF X1 Y1).state s2 :=
  ⟨rfl, rfl, rfl, rfl, rfl, rfl, rfl, rfl, rfl, rfl⟩

theorem plotMethodDispatch_configEq (s2 : PlotState) (ev : List Event)
    (X1 Y1 : List ℝ) :
    ConfigEq (plotMethodDispatch s2 ev X1 Y1).state s2 := by
  unfold plotMethodDispatch
  by_cases h1 : s2.method = "step"
  · rw [if_pos h1]; exact plotFinish_configEq _ _ _ _ _
  · rw [if_neg h1]
    by_cases h2 : s2.method = "trapez"
    · rw [if_pos h2]; exact plotFinish_configEq _ _ _ _ _
    · rw [if_neg h2]; exact configEq_refl _

theorem clfState_configEq (s : PlotState) : ConfigEq (clfState s) s := by
  unfold clfState
  split
  · exact ⟨rfl, rfl, rfl, rfl, rfl, rfl, rfl, rfl, rfl, rfl⟩
  · exact configEq_refl s

theorem plotChartCore_configEq (s1 : PlotState) (ev : List Event)
    (lt : Option (ℝ → ℝ)) (X0 sc' : List ℝ) :
    ConfigEq (plotChartCore s1 ev lt X0 sc').state s1 := by
  unfold plotChartCore
  by_cases hax : (match s1.selfFigAxes with
      | none => true
      | some n => n == 0) = true
  · rw [if_pos hax]
    cases lt with
    | none =>
      exact ⟨rfl, rfl, rfl, rfl, rfl, rfl, rfl, rfl, rfl, rfl⟩
    | some f =>
      exact configEq_trans (plotMethodDispatch_configEq _ _ _ _)
        ⟨rfl, rfl, rfl, rfl, rfl, rfl, rfl, rfl, rfl, rfl⟩
  · rw [if_neg hax]
    exact configEq_refl s1

theorem plotChart_configEq (s : PlotState) (ev : List Event)
    (lt : Option (ℝ → ℝ)) (X0 sc' : List ℝ) :
    ConfigEq (plotChart s ev lt X0 sc').state s := by
  unfold plotChart
  exact configEq_trans (plotChartCore_configEq _ _ _ _ _) (clfState_configEq s)

theorem plotBody_configEq (s : PlotState) (ts sc : List ℝ) (st T : ℝ) :
    ConfigEq (plotBody s ts sc st T).state s := by
  unfold plotBody
  cases htr : s.transform with
  | none =>
    simp only [htr]
    exact plotChart_configEq _ _ _ _ _
  | some g =>
    simp only [htr]
    cases hrel : ((ts.filter (fun t => decide (t ≤ T + st))).map (fun t => t - st)) with
    | nil => exact plotChart_configEq _ _ _ _ _
    | cons x xs => exact configEq_refl _

theorem plot_configEq (s : PlotState) (ts sc : List ℝ) (st T : ℝ) :
    ConfigEq (plot_learning_curve s ts sc st T).state s := by
  unfold plot_learning_curve
  cases hc : check_conditions ts sc st with
  | error e => exact configEq_refl _
  | ok u => exact plotBody_configEq _ _ _ _ _

/-- C9 counterexample: one successful `plot_learning_curve` call on a
fresh default instance leaves the frame counter at 0, not 1. -/
theorem C9_counterexample :
    (plot_learning_curve (defaultPlot "step") [] [] 0 7200).out
      = .ok ⟨0, [0, 1], [0, 0]⟩
  ∧ (plot_learning_curve (defaultPlot "step") [] [] 0 7200).state.cur_frame = 0
  ∧ (0 : ℕ) ≠ 1 := by
  refine ⟨?_, ?_, by decide⟩
  · simp [plot_learning_curve, check_conditions, checkLoop, plotBody, plotChart, plotChartCore, clfState,
      plotMethodDispatch, plotFinish, defaultPlot, mkPlotAlc, init_plot, auc_step]
  · simp [plot_learning_curve, check_conditions, checkLoop, plotBody, plotChart, plotChartCore, clfState,
      plotMethodDispatch, plotFinish, defaultPlot, mkPlotAlc, init_plot]

/-- C9 amended: the frame counter starts at 0 at construction and is
never modified by `plot_learning_curve` (the source contains no
increment of `self.cur_frame`), so after any number of calls,
successful or not, it still equals 0. -/
theorem C9_frame_counter_never_incremented :
    (∀ (method : String) (tr : Option (ℝ → ℝ)) (tn : Option String)
        (ac : String) (fa : Bool) (mn : Option String) (cf sfs stt : Bool)
        (kw : String → Option KwVal),
      (mkPlotAlc method tr tn ac fa mn cf sfs stt kw).cur_frame = 0)
  ∧ ∀ (s : PlotState) (ts sc : List ℝ) (st T : ℝ),
      (plot_learning_curve s ts sc st T).state.cur_frame = s.cur_frame := by
  refine ⟨fun _ _ _ _ _ _ _ _ _ _ => rfl, fun s ts sc st T => ?_⟩
  exact (plot_configEq s ts sc st T).2.2.2.2.2.2.2.2.2

/-! ### Which error the validation loop reports -/

theorem plotMethodDispatch_out_cases (s2 : PlotState) (ev : List Event)
    (X1 Y1 : List ℝ) :
    (plotMethodDispatch s2 ev X1 Y1).out = .error .invalidMethod
  ∨ ∃ u, (plotMethodDispatch s2 ev X1 Y1).out = .ok u := by
  unfold plotMethodDispatch
  by_cases h1 : s2.method = "step"
  · rw [if_pos h1]; exact Or.inr ⟨_, plotFinish_out _ _ _ _ _⟩
  · rw [if_neg h1]
    by_cases h2 : s2.method = "trapez"
    · rw [if_pos h2]; exact Or.inr ⟨_, plotFinish_out _ _ _ _ _⟩
    · rw [if_neg h2]; exact Or.inl rfl

theorem plotChartCore_no_nonMono (s1 : PlotState) (ev : List Event)
    (lt : Option (ℝ → ℝ)) (X0 sc' : List ℝ) (a b : ℝ) (i j : ℕ) :
    (plotChartCore s1 ev lt X0 sc').out ≠ .error (.nonMonotonic a b i j) := by
  unfold plotChartCore
  by_cases hax : (match s1.selfFigAxes with
      | none => true
      | some n => n == 0) = true
  · rw [if_pos hax]
    cases lt with
    | none => simp
    | some f =>
      rcases plotMethodDispatch_out_cases
          { s1 with curIsSelf := false, curAxes := 1 }
          (ev ++ [Event.createFigure]) (0 :: X0) (0 :: sc') with h | ⟨u, h⟩ <;>
        simp [h]
  · rw [if_neg hax]
    simp

theorem plotBody_no_nonMono (s : PlotState) (ts sc : List ℝ) (st T : ℝ)
    (a b : ℝ) (i j : ℕ) :
    (plotBody s ts sc st T).out ≠ .error (.nonMonotonic a b i j) := by
  unfold plotBody plotChart
  cases htr : s.transform with
  | none =>
    simp only [htr]
    exact plotChartCore_no_nonMono _ _ _ _ _ _ _ _ _
  | some g =>
    simp only [htr]
    cases hrel : ((ts.filter (fun t => decide (t ≤ T + st))).map (fun t => t - st)) with
    | nil => exact plotChartCore_no_nonMono _ _ _ _ _ _ _ _ _
    | cons x xs => simp

theorem plot_nonMono_iff (s : PlotState) (ts sc : List ℝ) (st T : ℝ)
    (a b : ℝ) (i j : ℕ) :
    (plot_learning_curve s ts sc st T).out = .error (.nonMonotonic a b i j)
      ↔ check_conditions ts sc st = .error (.nonMonotonic a b i j) := by
  unfold plot_learning_curve
  cases hc : check_conditions ts sc st with
  | error e => simp [hc]
  | ok u =>
    cases u
    simp only [hc]
    constructor
    · intro h; exact absurd h (plotBody_no_nonMono s ts sc st T a b i j)
    · intro h; exact absurd h (by simp)

theorem checkLoop_nonMono_iff (st : ℝ) (l : List ℝ) :
    ∀ (k0 : ℕ) (a b : ℝ) (i j : ℕ),
      checkLoop st l k0 = .error (.nonMonotonic a b i j) ↔
        ∃ k, k + 1 < l.length ∧ a = l.getD k 0 ∧ b = l.getD (k + 1) 0
          ∧ b < a ∧ i = k0 + k ∧ j = k0 + k + 1
          ∧ ∀ m, m < k → l.getD m 0 ≤ l.getD (m + 1) 0 ∧ st ≤ l.getD m 0 := by
  induction l with
  | nil =>
    intro k0 a b i j
    constructor
    · intro h; simp [checkLoop] at h
    · rintro ⟨k, hk, -⟩; simp at hk
  | cons t rest ih =>
    intro k0 a b i j
    cases rest with
    | nil =>
      constructor
      · intro h
        by_cases hst : t < st <;> simp [checkLoop, hst] at h
      · rintro ⟨k, hk, -⟩
        simp at hk
    | cons t' r =>
      constructor
      · intro h
        by_cases hmono : t ≤ t'
        · by_cases hst : t < st
          · simp [checkLoop, hmono, hst] at h
          · simp only [checkLoop, if_pos hmono, if_neg hst] at h
            rcases (ih (k0 + 1) a b i j).mp h with ⟨k, hk, ha, hb, hba, hi, hj, hall⟩
            refine ⟨k + 1, ?_, ?_, ?_, hba, ?_, ?_, ?_⟩
            · simp only [List.length_cons] at hk ⊢; omega
            · simpa using ha
            · simpa using hb
            · omega
            · omega
            · intro m hm
              cases m with
              | zero =>
                refine ⟨?_, ?_⟩
                · simpa using hmono
                · simpa using not_lt.mp hst
              | succ m' =>
                have hm' := hall m' (by omega)
                refine ⟨?_, ?_⟩
                · simpa using hm'.1
                · simpa using hm'.2
        · simp only [checkLoop, if_neg hmono] at h
          simp only [Except.error.injEq, Err.nonMonotonic.injEq] at h
          obtain ⟨ha, hb, hi, hj⟩ := h
          refine ⟨0, ?_, ?_, ?_, ?_, ?_, ?_, ?_⟩
          · simp
          · simpa using ha.symm
          · simpa using hb.symm
          · rw [← ha, ← hb]; exact not_le.mp hmono
          · omega
          · omega
          · intro m hm; exact absurd hm (Nat.not_lt_zero m)
      · rintro ⟨k, hk, ha, hb, hba, hi, hj, hall⟩
        cases k with
        | zero =>
          simp only [List.getD_cons_zero, List.getD_cons_succ] at ha hb
          have hmono : ¬ t ≤ t' := by
            rw [ha, hb] at hba
            exact not_le.mpr hba
          simp only [checkLoop, if_neg hmono]
          rw [ha, hb, hi, hj]
          norm_num
        | succ k' =>
          have h0 := hall 0 (Nat.succ_pos k')
          simp only [List.getD_cons_zero, List.getD_cons_succ] at h0
          have hmono : t ≤ t' := h0.1
          have hst : ¬ t < st := not_lt.mpr h0.2
          simp only [checkLoop, if_pos hmono, if_neg hst]
          rw [ih (k0 + 1) a b i j]
          refine ⟨k', ?_, ?_, ?_, hba, ?_, ?_, ?_⟩
          · simp only [List.length_cons] at hk ⊢; omega
          · simpa using ha
          · simpa using hb
          · omega
          · omega
          · intro m hm
            have hm' := hall (m + 1) (by omega)
            refine ⟨?_, ?_⟩
            · simpa using hm'.1
            · simpa using hm'.2

/-- C6 counterexample: at `timestamps=[-1,5,3]`, `scores=[0,0,0]`,
`start_time=0` there IS an adjacent pair with
`timestamps[1] > timestamps[2]`, yet the call raises
`TimestampBeforeStart` (for index 0), not `NonMonotonicTimestamps`:
the interleaved loop hits the start-time check of index 0 before the
monotonicity check of the pair (1,2), refuting the claimed "if and
only if". -/
theorem C6_counterexample :
    (plot_learning_curve (defaultPlot "step") [-1, 5, 3] [0, 0, 0] 0 7200).out
      = .error (.beforeStart (-1) 0 0)
  ∧ ([(-1 : ℝ), 5, 3].getD 2 0 < [(-1 : ℝ), 5, 3].getD 1 0)
  ∧ isNonMonoErr
      (plot_learning_curve (defaultPlot "step") [-1, 5, 3] [0, 0, 0] 0 7200).out
      = false := by
  have hrun : (plot_learning_curve (defaultPlot "step") [-1, 5, 3] [0, 0, 0] 0 7200).out
      = .error (.beforeStart (-1) 0 0) := by
    norm_num [plot_learning_curve, check_conditions, checkLoop]
  refine ⟨hrun, by norm_num, ?_⟩
  rw [hrun]
  rfl

/-- C6 amended: for equal-length inputs, `plot_learning_curve` raises
`NonMonotonicTimestamps` iff there is an adjacent index k with
`timestamps[k] > timestamps[k+1]` such that every earlier timestamp
passes both checks of the interleaved loop (`timestamps[m] ≤
timestamps[m+1]` and `timestamps[m] ≥ start_time` for all m < k) — if
an earlier timestamp precedes `start_time`, `TimestampBeforeStart`
wins instead.  When raised, the error reports the values and indices
(i, i+1) of the earliest such violation, and the check runs against
the original untruncated sequences. -/
theorem C6_nonmonotonic_characterization (ts sc : List ℝ) (st T : ℝ)
    (hlen : ts.length = sc.length) :
    ((∃ a b i j, (plot_learning_curve (defaultPlot "step") ts sc st T).out
        = .error (.nonMonotonic a b i j)) ↔
      ∃ k, k + 1 < ts.length ∧ ts.getD (k + 1) 0 < ts.getD k 0
        ∧ ∀ m, m < k → ts.getD m 0 ≤ ts.getD (m + 1) 0 ∧ st ≤ ts.getD m 0)
  ∧ ∀ a b i j, (plot_learning_curve (defaultPlot "step") ts sc st T).out
        = .error (.nonMonotonic a b i j) →
      a = ts.getD i 0 ∧ b = ts.getD (i + 1) 0 ∧ j = i + 1
        ∧ ts.getD (i + 1) 0 < ts.getD i 0
        ∧ ∀ m, m < i → ts.getD m 0 ≤ ts.getD (m + 1) 0 ∧ st ≤ ts.getD m 0 := by
  have hcheck : ∀ a b i j,
      (plot_learning_curve (defaultPlot "step") ts sc st T).out
          = .error (.nonMonotonic a b i j)
        ↔ checkLoop st ts 0 = .error (.nonMonotonic a b i j) := by
    intro a b i j
    rw [plot_nonMono_iff]
    unfold check_conditions
    rw [if_pos hlen]
  constructor
  · constructor
    · rintro ⟨a, b, i, j, h⟩
      rcases (checkLoop_nonMono_iff st ts 0 a b i j).mp ((hcheck a b i j).mp h)
        with ⟨k, hk, ha, hb, hba, hi, hj, hall⟩
      exact ⟨k, hk, by rw [← ha, ← hb]; exact hba, hall⟩
    · rintro ⟨k, hk, hba, hall⟩
      refine ⟨ts.getD k 0, ts.getD (k + 1) 0, k, k + 1, (hcheck _ _ _ _).mpr ?_⟩
      exact (checkLoop_nonMono_iff st ts 0 _ _ k (k + 1)).mpr
        ⟨k, hk, rfl, rfl, hba, by omega, by omega, hall⟩
  · intro a b i j h
    rcases (checkLoop_nonMono_iff st ts 0 a b i j).mp ((hcheck a b i j).mp h)
      with ⟨k, hk, ha, hb, hba, hi, hj, hall⟩
    have hik : i = k := by omega
    subst hik
    exact ⟨ha, hb, by omega, by rw [← ha, ← hb]; exact hba, hall⟩

/-- C6 witness: the amended characterization applied at the spec's
example `timestamps=[0,5,3]`, `scores=[0,0.1,0.2]`, `start_time=0`:
the pair at indices (1,2) is reported. -/
theorem C6_witness :
    ((∃ a b i j, (plot_learning_curve (defaultPlot "step") [0, 5, 3]
        [0, 0.1, 0.2] 0 7200).out = .error (.nonMonotonic a b i j)) ↔
      ∃ k, k + 1 < [(0 : ℝ), 5, 3].length
        ∧ [(0 : ℝ), 5, 3].getD (k + 1) 0 < [(0 : ℝ), 5, 3].getD k 0
        ∧ ∀ m, m < k → [(0 : ℝ), 5, 3].getD m 0 ≤ [(0 : ℝ), 5, 3].getD (m + 1) 0
            ∧ (0 : ℝ) ≤ [(0 : ℝ), 5, 3].getD m 0)
  ∧ ∀ a b i j, (plot_learning_curve (defaultPlot "step") [0, 5, 3]
        [0, 0.1, 0.2] 0 7200).out = .error (.nonMonotonic a b i j) →
      a = [(0 : ℝ), 5, 3].getD i 0 ∧ b = [(0 : ℝ), 5, 3].getD (i + 1) 0 ∧ j = i + 1
        ∧ [(0 : ℝ), 5, 3].getD (i + 1) 0 < [(0 : ℝ), 5, 3].getD i 0
        ∧ ∀ m, m < i → [(0 : ℝ), 5, 3].getD m 0 ≤ [(0 : ℝ), 5, 3].getD (m + 1) 0
            ∧ (0 : ℝ) ≤ [(0 : ℝ), 5, 3].getD m 0 :=
  C6_nonmonotonic_characterization [0, 5, 3] [0, 0.1, 0.2] 0 7200 rfl

/-! ### The style dictionary after a call -/

theorem setKw_self (kw : String → Option KwVal) (k : String) (v : KwVal) :
    setKw kw k v k = some v := by simp [setKw]

theorem setKw_other (kw : String → Option KwVal) (k : String) (v : KwVal)
    (q : String) (h : q ≠ k) : setKw kw k v q = kw q := by simp [setKw, h]

theorem removeKw_self (kw : String → Option KwVal) (k : String) :
    removeKw kw k k = none := by simp [removeKw]

theorem removeKw_other (kw : String → Option KwVal) (k : String)
    (q : String) (h : q ≠ k) : removeKw kw k q = kw q := by simp [removeKw, h]

theorem setIfAbsent_self (kw : String → Option KwVal) (k : String) (v : KwVal) :
    setIfAbsent kw k v k = some ((kw k).getD v) := by
  unfold setIfAbsent
  cases h : kw k <;> simp [h, setKw]

theorem setIfAbsent_other (kw : String → Option KwVal) (k : String)
    (v : KwVal) (q : String) (h : q ≠ k) : setIfAbsent kw k v q = kw q := by
  unfold setIfAbsent
  cases hk : kw k <;> simp [hk, setKw, h]

theorem kwargsAfter_spec (kw : String → Option KwVal) (mn : Option String)
    (a : ℝ) :
    kwargsAfter kw mn a "linestyle" = some (KwVal.str "--")
  ∧ kwargsAfter kw mn a "linewidth" = some (KwVal.num 1)
  ∧ kwargsAfter kw mn a "marker" = some KwVal.noneVal
  ∧ kwargsAfter kw mn a "label" = none
  ∧ kwargsAfter kw mn a "markersize" = some ((kw "markersize").getD (KwVal.num 3))
  ∧ ∀ q, q ≠ "marker" → q ≠ "markersize" → q ≠ "label" → q ≠ "linestyle" →
      q ≠ "linewidth" → kwargsAfter kw mn a q = kw q := by
  unfold kwargsAfter
  refine ⟨?_, ?_, ?_, ?_, ?_, ?_⟩
  · rw [removeKw_other _ _ _ (by decide), setKw_other _ _ _ _ (by decide),
      setKw_other _ _ _ _ (by decide), setKw_self]
  · rw [removeKw_other _ _ _ (by decide), setKw_other _ _ _ _ (by decide),
      setKw_self]
  · rw [removeKw_other _ _ _ (by decide), setKw_self]
  · rw [removeKw_self]
  · rw [removeKw_other _ _ _ (by decide), setKw_other _ _ _ _ (by decide),
      setKw_other _ _ _ _ (by decide), setKw_other _ _ _ _ (by decide),
      setIfAbsent_other _ _ _ _ (by decide), setIfAbsent_self,
      setIfAbsent_other _ _ _ _ (by decide)]
  · intro q h1 h2 h3 h4 h5
    rw [removeKw_other _ _ _ h3, setKw_other _ _ _ _ h1, setKw_other _ _ _ _ h5,
      setKw_other _ _ _ _ h4, setIfAbsent_other _ _ _ _ h3,
      setIfAbsent_other _ _ _ _ h2, setIfAbsent_other _ _ _ _ h1]

theorem plotFinish_kwargs (s2 : PlotState) (ev : List Event)
    (aucF : List ℝ → List ℝ → ℝ) (X1 Y1 : List ℝ) :
    (plotFinish s2 ev aucF X1 Y1).state.kwargs
      = kwargsAfter s2.kwargs s2.model_name
          (aucF (X1 ++ [1]) (Y1 ++ [Y1.getLastD 0])) := rfl

theorem plotMethodDispatch_kwargs_spec (s2 : PlotState) (ev : List Event)
    (X1 Y1 : List ℝ) :
    (∀ e, (plotMethodDispatch s2 ev X1 Y1).out = .error e →
      (plotMethodDispatch s2 ev X1 Y1).state.kwargs = s2.kwargs)
  ∧ ∀ u, (plotMethodDispatch s2 ev X1 Y1).out = .ok u →
      (plotMethodDispatch s2 ev X1 Y1).state.kwargs
        = kwargsAfter s2.kwargs s2.model_name u.alc := by
  unfold plotMethodDispatch
  by_cases h1 : s2.method = "step"
  · rw [if_pos h1]
    refine ⟨fun e he => ?_, fun u hu => ?_⟩
    · rw [plotFinish_out] at he; exact absurd he (by simp)
    · rw [plotFinish_out] at hu
      rw [plotFinish_kwargs]
      obtain rfl : u = ⟨_, _, _⟩ := (Except.ok.injEq _ _).mp hu.symm
      rfl
  · rw [if_neg h1]
    by_cases h2 : s2.method = "trapez"
    · rw [if_pos h2]
      refine ⟨fun e he => ?_, fun u hu => ?_⟩
      · rw [plotFinish_out] at he; exact absurd he (by simp)
      · rw [plotFinish_out] at hu
        rw [plotFinish_kwargs]
        obtain rfl : u = ⟨_, _, _⟩ := (Except.ok.injEq _ _).mp hu.symm
        rfl
    · rw [if_neg h2]
      exact ⟨fun e _ => rfl, fun u hu => absurd hu (by simp)⟩

theorem plotChartCore_kwargs_spec (s1 : PlotState) (ev : List Event)
    (lt : Option (ℝ → ℝ)) (X0 sc' : List ℝ) :
    (∀ e, (plotChartCore s1 ev lt X0 sc').out = .error e →
      (plotChartCore s1 ev lt X0 sc').state.kwargs = s1.kwargs)
  ∧ ∀ u, (plotChartCore s1 ev lt X0 sc').out = .ok u →
      (plotChartCore s1 ev lt X0 sc').state.kwargs
        = kwargsAfter s1.kwargs s1.model_name u.alc := by
  unfold plotChartCore
  by_cases hax : (match s1.selfFigAxes with
      | none => true
      | some n => n == 0) = true
  · rw [if_pos hax]
    cases lt with
    | none => exact ⟨fun e _ => rfl, fun u hu => absurd hu (by simp)⟩
    | some f =>
      exact plotMethodDispatch_kwargs_spec
        { s1 with curIsSelf := false, curAxes := 1 } _ _ _
  · rw [if_neg hax]
    exact ⟨fun e _ => rfl, fun u hu => absurd hu (by simp)⟩

theorem plot_kwargs_spec (s : PlotState) (ts sc : List ℝ) (st T : ℝ) :
    (∀ e, (plot_learning_curve s ts sc st T).out = .error e →
      (plot_learning_curve s ts sc st T).state.kwargs = s.kwargs)
  ∧ ∀ u, (plot_learning_curve s ts sc st T).out = .ok u →
      (plot_learning_curve s ts sc st T).state.kwargs
        = kwargsAfter s.kwargs s.model_name u.alc := by
  unfold plot_learning_curve
  cases hc : check_conditions ts sc st with
  | error e0 => exact ⟨fun e _ => rfl, fun u hu => absurd hu (by simp)⟩
  | ok v =>
    cases v
    unfold plotBody plotChart
    have hclf : (clfState s).kwargs = s.kwargs := by
      unfold clfState; split <;> rfl
    have hclfm : (clfState s).model_name = s.model_name := by
      unfold clfState; split <;> rfl
    cases htr : s.transform with
    | none =>
      simp only [htr]
      have h := plotChartCore_kwargs_spec (clfState s)
        (((if ((ts.filter (fun t => decide (t ≤ T + st))).length < ts.length)
            then [Event.warn (ts.filter (fun t => decide (t ≤ T + st))).length] else [])
          ++ (if s.clear_figure then [Event.clearFigure] else [])))
        (some (fun t => transform_time t T 60))
        (((ts.filter (fun t => decide (t ≤ T + st))).map (fun t => t - st)).map
          (fun t => transform_time t T 60))
        (sc.take (ts.filter (fun t => decide (t ≤ T + st))).length)
      rw [hclf, hclfm] at h
      exact h
    | some g =>
      simp only [htr]
      cases hrel : ((ts.filter (fun t => decide (t ≤ T + st))).map (fun t => t - st)) with
      | nil =>
        have h := plotChartCore_kwargs_spec (clfState s)
          (((if ((ts.filter (fun t => decide (t ≤ T + st))).length < ts.length)
              then [Event.warn (ts.filter (fun t => decide (t ≤ T + st))).length] else [])
            ++ (if s.clear_figure then [Event.clearFigure] else [])))
          none [] (sc.take (ts.filter (fun t => decide (t ≤ T + st))).length)
        rw [hclf, hclfm] at h
        exact h
      | cons x xs => exact ⟨fun e _ => rfl, fun u hu => absurd hu (by simp)⟩

/-- C8 counterexample: a successful call on a fresh default instance
(empty style dictionary) leaves `kwargs` changed — `linestyle` is now
set — refuting the claim that every configuration field including the
style-parameter map is unchanged by `plot_learning_curve`. -/
theorem C8_counterexample :
    (plot_learning_curve (defaultPlot "step") [] [] 0 7200).out
      = .ok ⟨0, [0, 1], [0, 0]⟩
  ∧ (plot_learning_curve (defaultPlot "step") [] [] 0 7200).state.kwargs "linestyle"
      = some (KwVal.str "--")
  ∧ (defaultPlot "step").kwargs "linestyle" = none
  ∧ (plot_learning_curve (defaultPlot "step") [] [] 0 7200).state.kwargs
      ≠ (defaultPlot "step").kwargs := by
  have hls : (plot_learning_curve (defaultPlot "step") [] [] 0 7200).state.kwargs "linestyle"
      = some (KwVal.str "--") := by
    simp [plot_learning_curve, check_conditions, checkLoop, plotBody, plotChart,
      plotChartCore, clfState, plotMethodDispatch, plotFinish, defaultPlot,
      mkPlotAlc, init_plot, removeKw, setKw, setIfAbsent]
  refine ⟨?_, hls, rfl, fun heq => ?_⟩
  · simp [plot_learning_curve, check_conditions, checkLoop, plotBody, plotChart,
      plotChartCore, clfState, plotMethodDispatch, plotFinish, defaultPlot,
      mkPlotAlc, init_plot, auc_step]
  · rw [heq] at hls
    simp [defaultPlot, mkPlotAlc, init_plot] at hls

/-- C8 amended: the nine named configuration fields (method,
transform, labels, colors, flags) are indeed unchanged by every call —
but the free-form style-parameter map `kwargs` is mutated by every
successful call: `linestyle`, `linewidth` and `marker` are
overwritten, `markersize` is defaulted to 3 when absent, any `label`
entry is removed, and all other keys are preserved; on a raising call
`kwargs` is unchanged. -/
theorem C8_config_mutation (s : PlotState) (ts sc : List ℝ) (st T : ℝ) :
    ConfigEq (plot_learning_curve s ts sc st T).state s
  ∧ (∀ e, (plot_learning_curve s ts sc st T).out = .error e →
      (plot_learning_curve s ts sc st T).state.kwargs = s.kwargs)
  ∧ ∀ u, (plot_learning_curve s ts sc st T).out = .ok u →
      (plot_learning_curve s ts sc st T).state.kwargs "linestyle" = some (KwVal.str "--")
    ∧ (plot_learning_curve s ts sc st T).state.kwargs "linewidth" = some (KwVal.num 1)
    ∧ (plot_learning_curve s ts sc st T).state.kwargs "marker" = some KwVal.noneVal
    ∧ (plot_learning_curve s ts sc st T).state.kwargs "label" = none
    ∧ (plot_learning_curve s ts sc st T).state.kwargs "markersize"
        = some ((s.kwargs "markersize").getD (KwVal.num 3))
    ∧ ∀ q, q ≠ "marker" → q ≠ "markersize" → q ≠ "label" → q ≠ "linestyle" →
        q ≠ "linewidth" →
        (plot_learning_curve s ts sc st T).state.kwargs q = s.kwargs q := by
  refine ⟨plot_configEq s ts sc st T, (plot_kwargs_spec s ts sc st T).1,
    fun u hu => ?_⟩
  rw [(plot_kwargs_spec s ts sc st T).2 u hu]
  exact kwargsAfter_spec s.kwargs s.model_name u.alc

/-- C8 witness: the amended theorem applied to a successful call on a
fresh default instance with the empty trace. -/
theorem C8_witness :
    (plot_learning_curve (defaultPlot "step") [] [] 0 7200).state.kwargs "linestyle"
      = some (KwVal.str "--")
  ∧ (plot_learning_curve (defaultPlot "step") [] [] 0 7200).state.kwargs "linewidth"
      = some (KwVal.num 1)
  ∧ (plot_learning_curve (defaultPlot "step") [] [] 0 7200).state.kwargs "marker"
      = some KwVal.noneVal
  ∧ (plot_learning_curve (defaultPlot "step") [] [] 0 7200).state.kwargs "label"
      = none
  ∧ (plot_learning_curve (defaultPlot "step") [] [] 0 7200).state.kwargs "color"
      = none := by
  have h := (C8_config_mutation (defaultPlot "step") [] [] 0 7200).2.2
    ⟨0, [0, 1], [0, 0]⟩
    (by simp [plot_learning_curve, check_conditions, checkLoop, plotBody,
      plotChart, plotChartCore, clfState, plotMethodDispatch, plotFinish,
      defaultPlot, mkPlotAlc, init_plot, auc_step])
  refine ⟨h.1, h.2.1, h.2.2.1, h.2.2.2.1, ?_⟩
  rw [h.2.2.2.2.2 "color" (by decide) (by decide) (by decide) (by decide) (by decide)]
  rfl

end AutoDL
